import Mathlib

/-!
Verification of the deterministic pricing/scoring core of the Alex
tree-service assessment repository: AFISS composite scoring and tier
classification, TreeScore geometry, equipment hourly-cost amortization,
employee true-hourly-cost burden calculation, and loadout pricing.

Numeric values are modelled as rationals (`ℚ`); Python float division by
zero raises `ZeroDivisionError`, modelled by `Except PyError` with
`PyError.zeroDivision`.
-/

namespace TreeAI

/-- Python runtime errors that the embedded code can raise. -/
inductive PyError where
  | zeroDivision
  deriving DecidableEq, Repr

/-- Python division semantics: `a / b` raises `ZeroDivisionError` when `b = 0`. -/
def pyDiv (a b : ℚ) : Except PyError ℚ :=
  if b = 0 then Except.error PyError.zeroDivision else Except.ok (a / b)

/-! ## AFISS Scorer (`alex_anthropic.py`) -/

/-- Project complexity tiers from `ProjectComplexity` in `alex_anthropic.py`. -/
inductive ProjectComplexity where
  | low
  | moderate
  | high
  | extreme
  deriving DecidableEq, Repr

/-- Numeric rank of a tier, for stating monotonicity. -/
def tierIndex : ProjectComplexity → Nat
  | ProjectComplexity.low => 0
  | ProjectComplexity.moderate => 1
  | ProjectComplexity.high => 2
  | ProjectComplexity.extreme => 3

/-- The five AFISS domain scores fed to the composite computation. -/
structure DomainScores where
  access : ℚ
  fall_zone : ℚ
  interference : ℚ
  severity : ℚ
  site_conditions : ℚ
  deriving DecidableEq, Repr

/-- Composite score with domain weights, from `_parse_assessment_response` in
`alex_anthropic.py` (the identical weighted sum appears in `assess_project` in
`alex_agent.py`). -/
def compositeScore (s : DomainScores) : ℚ :=
  s.access * 0.20 +
  s.fall_zone * 0.25 +
  s.interference * 0.20 +
  s.severity * 0.30 +
  s.site_conditions * 0.05

/-- `_determine_complexity` from `alex_anthropic.py`: complexity tier and
multiplier range from the composite score. -/
def determineComplexity (composite_score : ℚ) : ProjectComplexity × ℚ × ℚ :=
  if composite_score ≤ 28 then (ProjectComplexity.low, 1.12, 1.28)
  else if composite_score ≤ 46 then (ProjectComplexity.moderate, 1.45, 1.85)
  else if composite_score ≤ 58 then (ProjectComplexity.high, 2.1, 2.8)
  else (ProjectComplexity.extreme, 2.5, 3.5)

/-! ## TreeScore Calculator (`alex_anthropic.py` / `demo_alex_complete_pricing.py`) -/

/-- Service types distinguished by the TreeScore formula. -/
inductive ServiceType where
  | removal
  | stump_grinding
  | trimming
  deriving DecidableEq, Repr

/-- `_extract_treescore` fallback calculation in `alex_anthropic.py`
(the identical formulas appear in `calculate_treescore` in
`demo_alex_complete_pricing.py`). -/
def extractTreescore (height canopy_radius dbh : ℚ) : ServiceType → ℚ
  | ServiceType.removal => height * (canopy_radius * 2) * (dbh / 12)
  | ServiceType.stump_grinding => (height + 12) * dbh
  | ServiceType.trimming => height * canopy_radius * (dbh / 24)

/-! ## Employee Cost Model (`true_hourly_employee_cost.py`) -/

inductive EmployeePosition where
  | isa_certified_arborist
  | experienced_climber
  | ground_crew_lead
  | ground_crew_member
  | equipment_operator
  | apprentice
  | crew_supervisor
  | safety_manager
  deriving DecidableEq, Repr

inductive LocationState where
  | florida
  | georgia
  | texas
  | california
  | north_carolina
  deriving DecidableEq, Repr

/-- Enum string values, used to build the timestamped `employee_id`. -/
def EmployeePosition.value : EmployeePosition → String
  | EmployeePosition.isa_certified_arborist => "isa_certified_arborist"
  | EmployeePosition.experienced_climber => "experienced_climber"
  | EmployeePosition.ground_crew_lead => "ground_crew_lead"
  | EmployeePosition.ground_crew_member => "ground_crew_member"
  | EmployeePosition.equipment_operator => "equipment_operator"
  | EmployeePosition.apprentice => "apprentice"
  | EmployeePosition.crew_supervisor => "crew_supervisor"
  | EmployeePosition.safety_manager => "safety_manager"

def LocationState.value : LocationState → String
  | LocationState.florida => "florida"
  | LocationState.georgia => "georgia"
  | LocationState.texas => "texas"
  | LocationState.california => "california"
  | LocationState.north_carolina => "north_carolina"

/-- `EmployeeBurdenFactors` dataclass defaults. -/
structure EmployeeBurdenFactors where
  payroll_taxes_rate : ℚ := 0.0765
  federal_unemployment_rate : ℚ := 0.006
  state_unemployment_rate : ℚ := 0.027
  workers_comp_rate : ℚ := 0.12
  health_insurance_annual : ℚ := 8000
  equipment_ppe_annual : ℚ := 3000
  vehicle_allocation_annual : ℚ := 5000
  training_certification_annual : ℚ := 2000
  overhead_allocation_rate : ℚ := 0.20
  deriving DecidableEq, Repr

/-- `NonProductiveTime` dataclass defaults. -/
structure NonProductiveTime where
  pto_sick_hours : ℚ := 100
  training_hours : ℚ := 60
  equipment_maintenance_downtime : ℚ := 50
  weather_delay_hours : ℚ := 80
  administrative_time : ℚ := 100
  deriving DecidableEq, Repr

def NonProductiveTime.total_non_productive_hours (t : NonProductiveTime) : ℚ :=
  t.pto_sick_hours + t.training_hours + t.equipment_maintenance_downtime +
  t.weather_delay_hours + t.administrative_time

/-- `position_base_rates` table in `TrueHourlyEmployeeCostCalculator`. -/
def positionBaseRate : EmployeePosition → ℚ
  | EmployeePosition.isa_certified_arborist => 32.0
  | EmployeePosition.experienced_climber => 28.0
  | EmployeePosition.ground_crew_lead => 22.0
  | EmployeePosition.ground_crew_member => 18.0
  | EmployeePosition.equipment_operator => 25.0
  | EmployeePosition.apprentice => 15.0
  | EmployeePosition.crew_supervisor => 35.0
  | EmployeePosition.safety_manager => 40.0

/-- Per-state entries of the `state_adjustments` table. -/
structure StateAdjustments where
  workers_comp_rate : ℚ
  state_unemployment_rate : ℚ
  weather_delay_hours : ℚ
  deriving DecidableEq, Repr

def stateAdjustments : LocationState → StateAdjustments
  | LocationState.florida => ⟨0.12, 0.027, 80⟩
  | LocationState.georgia => ⟨0.10, 0.025, 60⟩
  | LocationState.texas => ⟨0.11, 0.026, 40⟩
  | LocationState.california => ⟨0.15, 0.034, 20⟩
  | LocationState.north_carolina => ⟨0.09, 0.024, 50⟩

/-- `standard_annual_hours = 2080`. -/
def standardAnnualHours : ℚ := 2080

/-- `EmployeeCostBreakdown` dataclass. -/
structure EmployeeCostBreakdown where
  employee_id : String
  position : EmployeePosition
  location_state : LocationState
  hourly_rate : ℚ
  annual_base_wages : ℚ
  payroll_taxes : ℚ
  unemployment_taxes : ℚ
  workers_compensation : ℚ
  health_insurance : ℚ
  equipment_ppe : ℚ
  vehicle_allocation : ℚ
  training_certification : ℚ
  overhead_allocation : ℚ
  total_annual_burden : ℚ
  total_scheduled_hours : ℚ
  non_productive_hours : ℚ
  productive_hours : ℚ
  total_annual_cost : ℚ
  true_hourly_cost : ℚ
  burden_multiplier : ℚ
  productive_hour_percentage : ℚ
  cost_per_productive_hour : ℚ
  deriving DecidableEq, Repr

/-- `calculate_true_hourly_cost` in `true_hourly_employee_cost.py`.
`now` stands for the `datetime.now().strftime(...)` timestamp embedded in
`employee_id`.  Python raises `ZeroDivisionError` when `productive_hours = 0`
(possible under custom non-productive time) or when `annual_base_wages = 0`
(hourly rate zero), hence the `Except` result. -/
def calculateTrueHourlyCost (position : EmployeePosition)
    (location_state : LocationState) (hourly_rate : Option ℚ)
    (custom_burden_factors : Option EmployeeBurdenFactors)
    (custom_non_productive_time : Option NonProductiveTime)
    (now : String) : Except PyError EmployeeCostBreakdown := do
  let rate := hourly_rate.getD (positionBaseRate position)
  let bf0 := custom_burden_factors.getD {}
  let npt0 := custom_non_productive_time.getD {}
  let adj := stateAdjustments location_state
  let bf : EmployeeBurdenFactors :=
    { bf0 with state_unemployment_rate := adj.state_unemployment_rate,
               workers_comp_rate := adj.workers_comp_rate }
  let npt : NonProductiveTime :=
    { npt0 with weather_delay_hours := adj.weather_delay_hours }
  let annual_base_wages := rate * standardAnnualHours
  let payroll_taxes := annual_base_wages * bf.payroll_taxes_rate
  let unemployment_taxes :=
    annual_base_wages * (bf.federal_unemployment_rate + bf.state_unemployment_rate)
  let workers_compensation := annual_base_wages * bf.workers_comp_rate
  let health_insurance := bf.health_insurance_annual
  let equipment_ppe := bf.equipment_ppe_annual
  let vehicle_allocation := bf.vehicle_allocation_annual
  let training_certification := bf.training_certification_annual
  let overhead_allocation := annual_base_wages * bf.overhead_allocation_rate
  let total_annual_burden :=
    payroll_taxes + unemployment_taxes + workers_compensation +
    health_insurance + equipment_ppe + vehicle_allocation +
    training_certification + overhead_allocation
  let total_scheduled_hours := standardAnnualHours
  let total_non_productive_hours := npt.total_non_productive_hours
  let productive_hours := total_scheduled_hours - total_non_productive_hours
  let total_annual_cost := annual_base_wages + total_annual_burden
  let true_hourly_cost ← pyDiv total_annual_cost productive_hours
  let burden_multiplier ← pyDiv total_annual_cost annual_base_wages
  let productive_hour_percentage := (productive_hours / total_scheduled_hours) * 100
  Except.ok
    { employee_id := position.value ++ "_" ++ location_state.value ++ "_" ++ now
      position := position
      location_state := location_state
      hourly_rate := rate
      annual_base_wages := annual_base_wages
      payroll_taxes := payroll_taxes
      unemployment_taxes := unemployment_taxes
      workers_compensation := workers_compensation
      health_insurance := health_insurance
      equipment_ppe := equipment_ppe
      vehicle_allocation := vehicle_allocation
      training_certification := training_certification
      overhead_allocation := overhead_allocation
      total_annual_burden := total_annual_burden
      total_scheduled_hours := total_scheduled_hours
      non_productive_hours := total_non_productive_hours
      productive_hours := productive_hours
      total_annual_cost := total_annual_cost
      true_hourly_cost := true_hourly_cost
      burden_multiplier := burden_multiplier
      productive_hour_percentage := productive_hour_percentage
      cost_per_productive_hour := true_hourly_cost }

/-- A crew member entry of `crew_composition`: position plus optional
explicit hourly rate (`member.get("hourly_rate")`). -/
structure CrewMember where
  position : EmployeePosition
  hourly_rate : Option ℚ
  deriving DecidableEq, Repr

/-- The `crew_summary` part of the dict returned by `calculate_crew_cost`. -/
structure CrewSummary where
  total_base_hourly_rate : ℚ
  total_true_hourly_cost : ℚ
  total_burden_cost_per_hour : ℚ
  average_burden_multiplier : ℚ
  crew_size : Nat
  location_state : LocationState
  deriving DecidableEq, Repr

/-- The accumulation loop of `calculate_crew_cost`: per-member
`calculate_true_hourly_cost`, summing base rates, true costs and burden. -/
def crewTotals (crew : List CrewMember) (location_state : LocationState)
    (now : String) : Except PyError (ℚ × ℚ × ℚ) :=
  match crew with
  | [] => Except.ok (0, 0, 0)
  | member :: rest => do
      let e ← calculateTrueHourlyCost member.position location_state
        member.hourly_rate none none now
      let (r, t, b) ← crewTotals rest location_state now
      Except.ok (e.hourly_rate + r, e.true_hourly_cost + t,
                 (e.true_hourly_cost - e.hourly_rate) + b)

/-- `calculate_crew_cost` in `true_hourly_employee_cost.py`.
`avg_burden_multiplier = total_true_cost / total_hourly_rate` is a bare
Python division: on an empty crew both totals are `0.0` and the call raises
`ZeroDivisionError`. -/
def calculateCrewCost (crew_composition : List CrewMember)
    (location_state : LocationState) (now : String) :
    Except PyError CrewSummary := do
  let (total_hourly_rate, total_true_cost, total_burden_cost) ←
    crewTotals crew_composition location_state now
  let avg_burden_multiplier ← pyDiv total_true_cost total_hourly_rate
  Except.ok
    { total_base_hourly_rate := total_hourly_rate
      total_true_hourly_cost := total_true_cost
      total_burden_cost_per_hour := total_burden_cost
      average_burden_multiplier := avg_burden_multiplier
      crew_size := crew_composition.length
      location_state := location_state }

/-! ## Equipment Cost Model (`equipment_cost_intelligence.py`) -/

inductive EquipmentCategory where
  | skid_steer_mulcher
  | compact_track_loader
  | mini_excavator
  | bucket_truck
  | chipper
  | stump_grinder
  | log_truck
  | pickup_truck
  deriving DecidableEq, Repr

inductive SeverityFactor where
  | light_residential
  | standard_work
  | heavy_vegetation
  | disaster_recovery
  deriving DecidableEq, Repr

/-- Float values of the `SeverityFactor` enum. -/
def SeverityFactor.value : SeverityFactor → ℚ
  | SeverityFactor.light_residential => 1.0
  | SeverityFactor.standard_work => 1.1
  | SeverityFactor.heavy_vegetation => 1.25
  | SeverityFactor.disaster_recovery => 1.45

/-- `EquipmentDefaults` dataclass (numeric fields). -/
structure EquipmentDefaults where
  msrp_new : ℚ
  salvage_percent : ℚ
  life_hours : ℚ
  fuel_burn_gph : ℚ
  maintenance_factor : ℚ
  deriving DecidableEq, Repr

/-- `_load_equipment_defaults` table (the TreeAI starter brain). -/
def equipmentDefaults : EquipmentCategory → EquipmentDefaults
  | EquipmentCategory.skid_steer_mulcher => ⟨118000, 20, 6000, 5.5, 100⟩
  | EquipmentCategory.compact_track_loader => ⟨75000, 25, 6000, 4.0, 80⟩
  | EquipmentCategory.mini_excavator => ⟨70000, 25, 8000, 3.0, 75⟩
  | EquipmentCategory.bucket_truck => ⟨165000, 30, 10000, 6.5, 60⟩
  | EquipmentCategory.chipper => ⟨50000, 25, 5000, 2.5, 90⟩
  | EquipmentCategory.stump_grinder => ⟨45000, 25, 5000, 2.8, 90⟩
  | EquipmentCategory.log_truck => ⟨220000, 35, 12000, 7.0, 65⟩
  | EquipmentCategory.pickup_truck => ⟨65000, 40, 8000, 2.5, 50⟩

/-- Engine constants set in `EquipmentCostIntelligence.__init__`. -/
def fuelPrice : ℚ := 4.25
def interestRate : ℚ := 0.06
def annualHours : ℚ := 1200

/-- `EquipmentCostBreakdown` dataclass (numeric fields plus the
timestamped id). -/
structure EquipmentCostBreakdown where
  equipment_id : String
  category : EquipmentCategory
  depreciation_per_hour : ℚ
  interest_per_hour : ℚ
  insurance_taxes_storage_per_hour : ℚ
  total_ownership_per_hour : ℚ
  fuel_per_hour : ℚ
  lubrication_per_hour : ℚ
  repairs_maintenance_per_hour : ℚ
  wear_parts_per_hour : ℚ
  total_operating_per_hour : ℚ
  total_cost_per_hour : ℚ
  severity_factor : ℚ
  severity_adjusted_cost : ℚ
  deriving DecidableEq, Repr

/-- `EquipmentCategory` enum string values, used for `equipment_id`. -/
def EquipmentCategory.value : EquipmentCategory → String
  | EquipmentCategory.skid_steer_mulcher => "skid_steer_mulcher"
  | EquipmentCategory.compact_track_loader => "compact_track_loader"
  | EquipmentCategory.mini_excavator => "mini_excavator"
  | EquipmentCategory.bucket_truck => "bucket_truck"
  | EquipmentCategory.chipper => "chipper"
  | EquipmentCategory.stump_grinder => "stump_grinder"
  | EquipmentCategory.log_truck => "log_truck"
  | EquipmentCategory.pickup_truck => "pickup_truck"

/-- `calculate_equipment_cost` in `equipment_cost_intelligence.py` (USACE
methodology).  `current_year` stands for `datetime.now().year` and `now` for
the timestamp embedded in `equipment_id`.  Python's `if year and year < ...`
treats `year = 0` as falsy, hence the `y ≠ 0` guard. -/
def calculateEquipmentCost (equipment_type : EquipmentCategory)
    (purchase_price : Option ℚ) (year : Option ℤ) (current_year : ℤ)
    (severity_factor : SeverityFactor) (now : String) :
    EquipmentCostBreakdown :=
  let defaults := equipmentDefaults equipment_type
  let price : ℚ :=
    match purchase_price with
    | some p => p
    | none =>
        match year with
        | some y =>
            if y ≠ 0 ∧ y < current_year then
              defaults.msrp_new * (1 - 0.08) ^ (current_year - y).toNat
            else defaults.msrp_new
        | none => defaults.msrp_new
  let salvage_value := price * (defaults.salvage_percent / 100)
  let depreciation_per_hour := (price - salvage_value) / defaults.life_hours
  let average_investment := (price + salvage_value) / 2
  let interest_per_hour := (average_investment * interestRate) / annualHours
  let insurance_taxes_storage_per_hour := (price * 0.03) / annualHours
  let total_ownership_per_hour :=
    depreciation_per_hour + interest_per_hour + insurance_taxes_storage_per_hour
  let fuel_per_hour := defaults.fuel_burn_gph * fuelPrice
  let lubrication_per_hour := fuel_per_hour * 0.15
  let repairs_maintenance_per_hour :=
    depreciation_per_hour * (defaults.maintenance_factor / 100) *
    severity_factor.value
  let wear_parts_per_hour := depreciation_per_hour * 0.20
  let total_operating_per_hour :=
    fuel_per_hour + lubrication_per_hour + repairs_maintenance_per_hour +
    wear_parts_per_hour
  let total_cost_per_hour := total_ownership_per_hour + total_operating_per_hour
  { equipment_id := equipment_type.value ++ "_" ++ now
    category := equipment_type
    depreciation_per_hour := depreciation_per_hour
    interest_per_hour := interest_per_hour
    insurance_taxes_storage_per_hour := insurance_taxes_storage_per_hour
    total_ownership_per_hour := total_ownership_per_hour
    fuel_per_hour := fuel_per_hour
    lubrication_per_hour := lubrication_per_hour
    repairs_maintenance_per_hour := repairs_maintenance_per_hour
    wear_parts_per_hour := wear_parts_per_hour
    total_operating_per_hour := total_operating_per_hour
    total_cost_per_hour := total_cost_per_hour
    severity_factor := severity_factor.value
    severity_adjusted_cost := total_cost_per_hour }

/-! ## Loadout Pricing Aggregator (`loadout_pricing_intelligence.py`) -/

inductive ProjectType where
  | tree_removal
  | tree_trimming
  | forestry_mulching
  | stump_grinding
  | emergency_response
  | lot_clearing
  deriving DecidableEq, Repr

/-- `target_profit_margins` table. -/
def targetProfitMargin : ProjectType → ℚ
  | ProjectType.tree_removal => 0.35
  | ProjectType.tree_trimming => 0.40
  | ProjectType.forestry_mulching => 0.30
  | ProjectType.stump_grinding => 0.35
  | ProjectType.emergency_response => 0.50
  | ProjectType.lot_clearing => 0.32

/-- `competitive_rates` table. -/
def competitiveRates : ProjectType → ℚ × ℚ
  | ProjectType.tree_removal => (200, 350)
  | ProjectType.tree_trimming => (150, 280)
  | ProjectType.forestry_mulching => (400, 600)
  | ProjectType.stump_grinding => (180, 320)
  | ProjectType.emergency_response => (300, 500)
  | ProjectType.lot_clearing => (350, 550)

/-- The pricing step of `calculate_loadout_pricing`:
`recommended_billing_rate = total_cost_per_hour / (1 - target_margin)`,
a bare Python division with no margin validation. -/
def recommendedBillingRate (total_cost_per_hour target_margin : ℚ) :
    Except PyError ℚ :=
  pyDiv total_cost_per_hour (1 - target_margin)

/-- The cost/pricing slice of `LoadoutPricingBreakdown`. -/
structure LoadoutCore where
  employee_cost_per_hour : ℚ
  base_wages_per_hour : ℚ
  burden_cost_per_hour : ℚ
  total_cost_per_hour : ℚ
  recommended_billing_rate : ℚ
  profit_margin_percentage : ℚ
  break_even_rate : ℚ
  competitive_rate_range : ℚ × ℚ
  deriving DecidableEq, Repr

/-- The cost and pricing computation of `calculate_loadout_pricing`
(`loadout_pricing_intelligence.py`): crew costs via `calculate_crew_cost`,
total cost as equipment plus employees, then the margin division.  The
equipment engine result `equipment_cost_per_hour` enters as an input
(`calculate_loadout_equipment_cost` is a collaborator summing the equipment
list and small-tools pool). -/
def calculateLoadoutPricing (equipment_cost_per_hour : ℚ)
    (crew_composition : List CrewMember) (location_state : LocationState)
    (project_type : ProjectType) (now : String) :
    Except PyError LoadoutCore := do
  let cs ← calculateCrewCost crew_composition location_state now
  let total_cost_per_hour := equipment_cost_per_hour + cs.total_true_hourly_cost
  let target_margin := targetProfitMargin project_type
  let rate ← recommendedBillingRate total_cost_per_hour target_margin
  Except.ok
    { employee_cost_per_hour := cs.total_true_hourly_cost
      base_wages_per_hour := cs.total_base_hourly_rate
      burden_cost_per_hour := cs.total_burden_cost_per_hour
      total_cost_per_hour := total_cost_per_hour
      recommended_billing_rate := rate
      profit_margin_percentage := target_margin * 100
      break_even_rate := total_cost_per_hour
      competitive_rate_range := competitiveRates project_type }

/-- Erase the timestamped `employee_id`, leaving the numeric payload. -/
def stripEmployeeId (b : EmployeeCostBreakdown) : EmployeeCostBreakdown :=
  { b with employee_id := "" }

/-- Erase the timestamped `equipment_id`, leaving the numeric payload. -/
def stripEquipmentId (b : EquipmentCostBreakdown) : EquipmentCostBreakdown :=
  { b with equipment_id := "" }

/-! ## Theorems -/

lemma bind_ok {α β : Type} (x : α) (f : α → Except PyError β) :
    (Except.ok x : Except PyError α) >>= f = f x := rfl

lemma bind_error {α β : Type} (e : PyError) (f : α → Except PyError β) :
    (Except.error e : Except PyError α) >>= f = Except.error e := rfl

lemma determineComplexity_low_iff (c : ℚ) :
    determineComplexity c = (ProjectComplexity.low, 1.12, 1.28) ↔ c ≤ 28 := by
  unfold determineComplexity
  split_ifs with h1 h2 h3 <;> simp_all <;>
    first
    | linarith
    | (intro h; linarith)
    | (constructor <;> linarith)

lemma determineComplexity_moderate_iff (c : ℚ) :
    determineComplexity c = (ProjectComplexity.moderate, 1.45, 1.85) ↔
      28 < c ∧ c ≤ 46 := by
  unfold determineComplexity
  split_ifs with h1 h2 h3 <;> simp_all <;>
    first
    | linarith
    | (intro h; linarith)
    | (constructor <;> linarith)

lemma determineComplexity_high_iff (c : ℚ) :
    determineComplexity c = (ProjectComplexity.high, 2.1, 2.8) ↔
      46 < c ∧ c ≤ 58 := by
  unfold determineComplexity
  split_ifs with h1 h2 h3 <;> simp_all <;>
    first
    | linarith
    | (intro h; linarith)
    | (constructor <;> linarith)

lemma determineComplexity_extreme_iff (c : ℚ) :
    determineComplexity c = (ProjectComplexity.extreme, 2.5, 3.5) ↔ 58 < c := by
  unfold determineComplexity
  split_ifs with h1 h2 h3 <;> simp_all <;>
    first
    | linarith
    | (intro h; linarith)
    | (constructor <;> linarith)

lemma tierIndex_mono {a b : ℚ} (hab : a ≤ b) :
    tierIndex (determineComplexity a).1 ≤ tierIndex (determineComplexity b).1 := by
  unfold determineComplexity
  split_ifs <;> simp [tierIndex] <;> linarith

/-- C1: for domain scores all in `[0,100]`, the AFISS composite score is the
fixed weighted sum (weights access `0.20`, fall zone `0.25`, interference
`0.20`, severity `0.30`, site conditions `0.05`) and lies in `[0,100]`; on the
input `{access 15, fall_zone 35, interference 25, severity 20,
site_conditions 8}` it is `23.15`, giving tier `low` with multiplier range
`(1.12, 1.28)`. -/
theorem afiss_composite_weighted_sum (s : DomainScores)
    (ha : 0 ≤ s.access ∧ s.access ≤ 100)
    (hf : 0 ≤ s.fall_zone ∧ s.fall_zone ≤ 100)
    (hi : 0 ≤ s.interference ∧ s.interference ≤ 100)
    (hs : 0 ≤ s.severity ∧ s.severity ≤ 100)
    (hc : 0 ≤ s.site_conditions ∧ s.site_conditions ≤ 100) :
    compositeScore s =
      s.access * 0.20 + s.fall_zone * 0.25 + s.interference * 0.20 +
        s.severity * 0.30 + s.site_conditions * 0.05 ∧
    0 ≤ compositeScore s ∧ compositeScore s ≤ 100 ∧
    compositeScore ⟨15, 35, 25, 20, 8⟩ = 23.15 ∧
    determineComplexity (compositeScore ⟨15, 35, 25, 20, 8⟩) =
      (ProjectComplexity.low, 1.12, 1.28) := by
  obtain ⟨ha0, ha1⟩ := ha
  obtain ⟨hf0, hf1⟩ := hf
  obtain ⟨hi0, hi1⟩ := hi
  obtain ⟨hs0, hs1⟩ := hs
  obtain ⟨hc0, hc1⟩ := hc
  refine ⟨rfl, ?_, ?_, by norm_num [compositeScore],
    by norm_num [compositeScore, determineComplexity]⟩
  · unfold compositeScore; linarith
  · unfold compositeScore; linarith

/-- Witness for C1 at the spec's concrete domain scores. -/
theorem afiss_composite_weighted_sum_witness :
    ((0:ℚ) ≤ 15 ∧ (15:ℚ) ≤ 100) ∧
    compositeScore ⟨15, 35, 25, 20, 8⟩ = 23.15 :=
  ⟨by norm_num,
   (afiss_composite_weighted_sum ⟨15, 35, 25, 20, 8⟩ (by norm_num) (by norm_num)
     (by norm_num) (by norm_num) (by norm_num)).2.2.2.1⟩

/-- C2: tier classification uses the fixed breakpoints with inclusive-lower
semantics (`≤ 28` low with `(1.12, 1.28)`, `≤ 46` moderate with
`(1.45, 1.85)`, `≤ 58` high with `(2.1, 2.8)`, `> 58` extreme with
`(2.5, 3.5)`), a score exactly at a breakpoint belongs to the lower-adjacent
tier (`28.0` is low, `28.01` is moderate), and increasing the composite never
decreases the tier. -/
theorem afiss_tier_classification (c c' : ℚ) (hcc : c ≤ c') :
    (determineComplexity c = (ProjectComplexity.low, 1.12, 1.28) ↔ c ≤ 28) ∧
    (determineComplexity c = (ProjectComplexity.moderate, 1.45, 1.85) ↔
      28 < c ∧ c ≤ 46) ∧
    (determineComplexity c = (ProjectComplexity.high, 2.1, 2.8) ↔
      46 < c ∧ c ≤ 58) ∧
    (determineComplexity c = (ProjectComplexity.extreme, 2.5, 3.5) ↔ 58 < c) ∧
    tierIndex (determineComplexity c).1 ≤ tierIndex (determineComplexity c').1 ∧
    determineComplexity 28 = (ProjectComplexity.low, 1.12, 1.28) ∧
    determineComplexity 28.01 = (ProjectComplexity.moderate, 1.45, 1.85) := by
  refine ⟨determineComplexity_low_iff c, determineComplexity_moderate_iff c,
    determineComplexity_high_iff c, determineComplexity_extreme_iff c,
    tierIndex_mono hcc, ?_, ?_⟩
  · rw [determineComplexity_low_iff]
  · rw [determineComplexity_moderate_iff]
    norm_num

/-- Witness for C2: tier monotonicity applied at composite scores 10 and 30. -/
theorem afiss_tier_classification_witness :
    (10:ℚ) ≤ 30 ∧
    tierIndex (determineComplexity 10).1 ≤ tierIndex (determineComplexity 30).1 :=
  ⟨by norm_num, (afiss_tier_classification 10 30 (by norm_num)).2.2.2.2.1⟩

/-- C3: with target margin strictly between 0 and 1 and positive total cost,
the recommended billing rate is `total_cost_per_hour / (1 - target_margin)`
and strictly exceeds the total cost; at `total_cost_per_hour = 239.02` and
`target_margin = 0.35` the rate is within `0.01` of `367.72`. -/
theorem loadout_recommended_rate_margin (total_cost_per_hour target_margin : ℚ)
    (h0 : 0 < target_margin) (h1 : target_margin < 1)
    (ht : 0 < total_cost_per_hour) :
    recommendedBillingRate total_cost_per_hour target_margin =
      Except.ok (total_cost_per_hour / (1 - target_margin)) ∧
    total_cost_per_hour < total_cost_per_hour / (1 - target_margin) ∧
    (∃ r, recommendedBillingRate 239.02 0.35 = Except.ok r ∧
      |r - 367.72| < 0.01) := by
  have hmpos : 0 < 1 - target_margin := by linarith
  refine ⟨?_, ?_, ⟨23902/65, ?_, ?_⟩⟩
  · unfold recommendedBillingRate pyDiv
    rw [if_neg (by linarith)]
  · rw [lt_div_iff hmpos]
    nlinarith [mul_pos ht h0]
  · norm_num [recommendedBillingRate, pyDiv]
  · rw [abs_sub_lt_iff]
    norm_num

/-- Witness for C3 at the spec's concrete cost and margin. -/
theorem loadout_recommended_rate_margin_witness :
    ((0:ℚ) < 0.35 ∧ (0.35:ℚ) < 1 ∧ (0:ℚ) < 239.02) ∧
    (recommendedBillingRate 239.02 0.35 =
        Except.ok (239.02 / (1 - 0.35)) ∧
      (239.02:ℚ) < 239.02 / (1 - 0.35) ∧
      (∃ r, recommendedBillingRate 239.02 0.35 = Except.ok r ∧
        |r - 367.72| < 0.01)) :=
  ⟨by norm_num,
   loadout_recommended_rate_margin 239.02 0.35 (by norm_num) (by norm_num)
     (by norm_num)⟩

/-- C4: the pricing step performs no margin validation.  At
`target_margin = 1` the division raises `ZeroDivisionError` (there is no
`InvalidMargin` error anywhere in the code), and at `target_margin = 1.5` it
returns the negative rate `-478.04` instead of failing. -/
theorem loadout_margin_no_validation :
    recommendedBillingRate 239.02 1 = Except.error PyError.zeroDivision ∧
    recommendedBillingRate 239.02 1.5 = Except.ok (-478.04) ∧
    ((-478.04 : ℚ) < 0) := by
  norm_num [recommendedBillingRate, pyDiv]

/-- C5: for positive height, canopy radius and DBH, the removal TreeScore is
`height × (canopy_radius × 2) × (dbh / 12)` (and positive); at height 80,
canopy radius 30 and DBH 36 it is 14400. -/
theorem treescore_removal_formula (height canopy_radius dbh : ℚ)
    (hh : 0 < height) (hc : 0 < canopy_radius) (hd : 0 < dbh) :
    extractTreescore height canopy_radius dbh ServiceType.removal =
      height * (canopy_radius * 2) * (dbh / 12) ∧
    0 < extractTreescore height canopy_radius dbh ServiceType.removal ∧
    extractTreescore 80 30 36 ServiceType.removal = 14400 := by
  refine ⟨rfl, ?_, by norm_num [extractTreescore]⟩
  unfold extractTreescore
  exact mul_pos (mul_pos hh (by linarith)) (div_pos hd (by norm_num))

/-- Witness for C5 at the spec's concrete tree geometry. -/
theorem treescore_removal_formula_witness :
    ((0:ℚ) < 80 ∧ (0:ℚ) < 30 ∧ (0:ℚ) < 36) ∧
    extractTreescore 80 30 36 ServiceType.removal = 14400 :=
  ⟨by norm_num,
   (treescore_removal_formula 80 30 36 (by norm_num) (by norm_num)
     (by norm_num)).2.2⟩

/-- C8: the TreeScore calculation performs no input validation.  At
height `-1`, canopy radius `1`, DBH `12` it returns the negative number `-2`
(no `InvalidInput` error exists in the code), and at height `0` it returns
`0` rather than failing. -/
theorem treescore_no_input_validation :
    extractTreescore (-1) 1 12 ServiceType.removal = -2 ∧
    extractTreescore (-1) 1 12 ServiceType.removal < 0 ∧
    extractTreescore 0 1 12 ServiceType.removal = 0 := by
  norm_num [extractTreescore]

/-- C7: for every equipment category and overrides, `total_cost_per_hour` is
the sum of the seven sub-components (depreciation, interest,
insurance/taxes/storage, fuel, lubrication, repairs/maintenance, wear parts);
for `bucket_truck` defaults (MSRP 165000, salvage 30%, life 10000 h, fuel
6.5 gph at 4.25/gal) depreciation is `11.55` and fuel `27.625` per hour. -/
theorem equipment_total_is_component_sum (cat : EquipmentCategory)
    (pp : Option ℚ) (yr : Option ℤ) (cy : ℤ) (sev : SeverityFactor)
    (now : String) :
    (calculateEquipmentCost cat pp yr cy sev now).total_cost_per_hour =
      (calculateEquipmentCost cat pp yr cy sev now).depreciation_per_hour +
      (calculateEquipmentCost cat pp yr cy sev now).interest_per_hour +
      (calculateEquipmentCost cat pp yr cy sev
        now).insurance_taxes_storage_per_hour +
      (calculateEquipmentCost cat pp yr cy sev now).fuel_per_hour +
      (calculateEquipmentCost cat pp yr cy sev now).lubrication_per_hour +
      (calculateEquipmentCost cat pp yr cy sev now).repairs_maintenance_per_hour +
      (calculateEquipmentCost cat pp yr cy sev now).wear_parts_per_hour ∧
    (calculateEquipmentCost EquipmentCategory.bucket_truck none none cy sev
      now).depreciation_per_hour = 11.55 ∧
    (calculateEquipmentCost EquipmentCategory.bucket_truck none none cy sev
      now).fuel_per_hour = 27.625 := by
  refine ⟨?_, ?_, ?_⟩
  · simp only [calculateEquipmentCost]
    ring
  · norm_num [calculateEquipmentCost, equipmentDefaults]
  · norm_num [calculateEquipmentCost, equipmentDefaults, fuelPrice]

/-- C6 (amended): for every position, location state and strictly positive
hourly rate, `calculate_true_hourly_cost` returns a breakdown whose
`true_hourly_cost` strictly exceeds the input rate — the burden is strictly
additive and non-productive hours dilute the wage base. -/
theorem employee_true_cost_exceeds_rate (pos : EmployeePosition)
    (st : LocationState) (rate : ℚ) (now : String) (hr : 0 < rate) :
    ∃ b, calculateTrueHourlyCost pos st (some rate) none none now =
        Except.ok b ∧
      b.hourly_rate = rate ∧ rate < b.true_hourly_cost := by
  cases st <;>
  · simp only [calculateTrueHourlyCost, stateAdjustments, standardAnnualHours,
      NonProductiveTime.total_non_productive_hours, Option.getD, pyDiv]
    norm_num
    rw [if_neg hr.ne']
    refine ⟨_, rfl, rfl, ?_⟩
    dsimp only
    rw [lt_div_iff (by norm_num)]
    ring_nf
    linarith

/-- Witness for C6 at the apprentice position in Florida with rate 20. -/
theorem employee_true_cost_exceeds_rate_witness :
    (0:ℚ) < 20 ∧
    ∃ b, calculateTrueHourlyCost EmployeePosition.apprentice
        LocationState.florida (some 20) none none "20250101_000000" =
        Except.ok b ∧
      b.hourly_rate = 20 ∧ (20:ℚ) < b.true_hourly_cost :=
  ⟨by norm_num,
   employee_true_cost_exceeds_rate EmployeePosition.apprentice
     LocationState.florida 20 "20250101_000000" (by norm_num)⟩

/-- C6 counterexample: at the non-negative hourly rate 0 the code raises
`ZeroDivisionError` while computing `burden_multiplier`
(`total_annual_cost / annual_base_wages` with zero wages) instead of
returning a breakdown, so no `true_hourly_cost` exists there. -/
theorem employee_cost_zero_rate_raises :
    calculateTrueHourlyCost EmployeePosition.apprentice LocationState.florida
      (some 0) none none "20250101_000000" =
      Except.error PyError.zeroDivision := by
  simp only [calculateTrueHourlyCost, stateAdjustments, standardAnnualHours,
    NonProductiveTime.total_non_productive_hours, Option.getD, pyDiv]
  norm_num
  rfl

/-- C10: on an empty `crew_composition`, `calculate_crew_cost` divides the
total true cost by the total base hourly rate with both totals `0`, raising
`ZeroDivisionError` — and `calculate_loadout_pricing`, which calls it,
propagates the failure; for every crew whose accumulated total base rate is
positive, the division is well-defined and the call succeeds. -/
theorem crew_cost_empty_divzero :
    (∀ st now, calculateCrewCost [] st now = Except.error PyError.zeroDivision) ∧
    (∀ e st pt now, calculateLoadoutPricing e [] st pt now =
      Except.error PyError.zeroDivision) ∧
    (∀ crew st now r t b, crewTotals crew st now = Except.ok (r, t, b) →
      0 < r →
      ∃ s, calculateCrewCost crew st now = Except.ok s ∧
        s.average_burden_multiplier = t / r ∧ s.total_base_hourly_rate = r) := by
  refine ⟨fun st now => rfl, fun e st pt now => rfl, ?_⟩
  intro crew st now r t b hct hr
  unfold calculateCrewCost
  rw [hct]
  simp only [bind_ok]
  unfold pyDiv
  rw [if_neg hr.ne']
  exact ⟨_, rfl, rfl, rfl⟩

/-- Witness for C10 on a one-member crew with base rate 20. -/
theorem crew_cost_empty_divzero_witness :
    (crewTotals [⟨EmployeePosition.apprentice, some 20⟩] LocationState.florida
        "20250101_000000" = Except.ok (20, 193668/4225, 109168/4225) ∧
      (0:ℚ) < 20) ∧
    ∃ s, calculateCrewCost [⟨EmployeePosition.apprentice, some 20⟩]
        LocationState.florida "20250101_000000" = Except.ok s ∧
      s.average_burden_multiplier = (193668/4225) / 20 ∧
      s.total_base_hourly_rate = 20 := by
  have hct : crewTotals [⟨EmployeePosition.apprentice, some 20⟩]
      LocationState.florida "20250101_000000" =
      Except.ok (20, 193668/4225, 109168/4225) := by
    norm_num [crewTotals, calculateTrueHourlyCost, stateAdjustments,
      standardAnnualHours, NonProductiveTime.total_non_productive_hours, pyDiv]
    simp only [bind_ok]
    norm_num
  exact ⟨⟨hct, by norm_num⟩,
    crew_cost_empty_divzero.2.2 [⟨EmployeePosition.apprentice, some 20⟩]
      LocationState.florida "20250101_000000" 20 (193668/4225) (109168/4225)
      hct (by norm_num)⟩

lemma map_bind {α β γ : Type} (g : β → γ) (x : Except PyError α)
    (f : α → Except PyError β) :
    (x >>= f).map g = x >>= fun a => (f a).map g := by
  cases x <;> rfl

lemma map_ok {α β : Type} (g : α → β) (x : α) :
    (Except.ok x : Except PyError α).map g = Except.ok (g x) := rfl

lemma map_error {α β : Type} (g : α → β) (e : PyError) :
    (Except.error e : Except PyError α).map g = Except.error e := rfl

lemma calculateTrueHourlyCost_strip_clock (pos : EmployeePosition)
    (st : LocationState) (r : Option ℚ) (cb : Option EmployeeBurdenFactors)
    (cn : Option NonProductiveTime) (now now' : String) :
    (calculateTrueHourlyCost pos st r cb cn now).map stripEmployeeId =
    (calculateTrueHourlyCost pos st r cb cn now').map stripEmployeeId := by
  simp only [calculateTrueHourlyCost, map_bind, map_ok, stripEmployeeId]

lemma crewTotals_clock_free (crew : List CrewMember) (st : LocationState)
    (now now' : String) : crewTotals crew st now = crewTotals crew st now' := by
  induction crew with
  | nil => rfl
  | cons m rest ih =>
      unfold crewTotals
      have h := calculateTrueHourlyCost_strip_clock m.position st m.hourly_rate
        none none now now'
      cases hx : calculateTrueHourlyCost m.position st m.hourly_rate none none
          now with
      | error e1 =>
          cases hy : calculateTrueHourlyCost m.position st m.hourly_rate none
              none now' with
          | error e2 =>
              simp only [hx, hy, map_error] at h
              cases h
              rfl
          | ok b2 =>
              simp only [hx, hy, map_error, map_ok] at h
              cases h
      | ok b1 =>
          cases hy : calculateTrueHourlyCost m.position st m.hourly_rate none
              none now' with
          | error e2 =>
              simp only [hx, hy, map_ok, map_error] at h
              cases h
          | ok b2 =>
              simp only [hx, hy, map_ok, Except.ok.injEq] at h
              have hrate := congrArg EmployeeCostBreakdown.hourly_rate h
              have hthc := congrArg EmployeeCostBreakdown.true_hourly_cost h
              simp only [stripEmployeeId] at hrate hthc
              simp only [bind_ok, hrate, hthc, ih]

lemma calculateCrewCost_clock_free (crew : List CrewMember)
    (st : LocationState) (now now' : String) :
    calculateCrewCost crew st now = calculateCrewCost crew st now' := by
  unfold calculateCrewCost
  rw [crewTotals_clock_free crew st now now']

lemma calculateEquipmentCost_strip_clock (cat : EquipmentCategory)
    (pp : Option ℚ) (yr : Option ℤ) (cy : ℤ) (sev : SeverityFactor)
    (now now' : String) :
    stripEquipmentId (calculateEquipmentCost cat pp yr cy sev now) =
    stripEquipmentId (calculateEquipmentCost cat pp yr cy sev now') := by
  simp only [calculateEquipmentCost, stripEquipmentId]

lemma calculateLoadoutPricing_clock_free (e : ℚ) (crew : List CrewMember)
    (st : LocationState) (pt : ProjectType) (now now' : String) :
    calculateLoadoutPricing e crew st pt now =
      calculateLoadoutPricing e crew st pt now' := by
  unfold calculateLoadoutPricing
  rw [calculateCrewCost_clock_free crew st now now']

/-- C9 (amended): the core computations are deterministic in every field
except the generated id fields, which embed the current wall-clock
timestamp: with the clock reading modelled explicitly, two calls with
identical inputs agree after erasing `employee_id`/`equipment_id`, and crew
and loadout pricing results (which carry no id here) agree exactly. -/
theorem core_determinism_modulo_timestamp (pos : EmployeePosition)
    (st : LocationState) (r : Option ℚ) (cb : Option EmployeeBurdenFactors)
    (cn : Option NonProductiveTime) (cat : EquipmentCategory) (pp : Option ℚ)
    (yr : Option ℤ) (cy : ℤ) (sev : SeverityFactor) (e : ℚ)
    (crew : List CrewMember) (pt : ProjectType) (now now' : String) :
    (calculateTrueHourlyCost pos st r cb cn now).map stripEmployeeId =
      (calculateTrueHourlyCost pos st r cb cn now').map stripEmployeeId ∧
    stripEquipmentId (calculateEquipmentCost cat pp yr cy sev now) =
      stripEquipmentId (calculateEquipmentCost cat pp yr cy sev now') ∧
    calculateCrewCost crew st now = calculateCrewCost crew st now' ∧
    calculateLoadoutPricing e crew st pt now =
      calculateLoadoutPricing e crew st pt now' :=
  ⟨calculateTrueHourlyCost_strip_clock pos st r cb cn now now',
   calculateEquipmentCost_strip_clock cat pp yr cy sev now now',
   calculateCrewCost_clock_free crew st now now',
   calculateLoadoutPricing_clock_free e crew st pt now now'⟩

/-- C9 counterexample: with identical inputs but two different clock
readings, `calculate_true_hourly_cost` returns different outputs — the
`employee_id` field embeds the timestamp — so not every field of the result
is free of hidden state. -/
theorem employee_cost_depends_on_clock :
    calculateTrueHourlyCost EmployeePosition.apprentice LocationState.florida
        (some 20) none none "20250101_120000" ≠
      calculateTrueHourlyCost EmployeePosition.apprentice LocationState.florida
        (some 20) none none "20250101_120001" := by
  intro h
  have h2 := congrArg (Except.map EmployeeCostBreakdown.employee_id) h
  simp only [calculateTrueHourlyCost, stateAdjustments, standardAnnualHours,
    NonProductiveTime.total_non_productive_hours, Option.getD, pyDiv,
    map_bind, map_ok] at h2
  norm_num [EmployeePosition.value, LocationState.value] at h2
  simp only [bind_ok] at h2
  exact absurd (Except.ok.inj h2) (by decide)

end TreeAI
